import Mathlib

/-!
Verification of the control-protocol multiplexing engine and framing layer of
the claude-code-sdk-rust repository (files `src/query.rs`,
`src/transport/subprocess.rs`, `src/client.rs`, `src/errors.rs`,
`src/types.rs`), as a shallow embedding in Lean 4.

JSON values are modelled by an inductive `Json` (numbers restricted to
integers; the claims under verification involve no floating-point payloads).
`serde_json::Map` is the ordered list of fields as the serializer emits them.
-/

namespace ClaudeSDK

/-- Model of `serde_json::Value` (numbers as integers). -/
inductive Json where
  | null : Json
  | bool (b : Bool) : Json
  | num (n : Int) : Json
  | str (s : String) : Json
  | arr (elements : List Json) : Json
  | obj (fields : List (String × Json)) : Json
deriving Repr

/-- First field with the given key, as `serde_json::Value::get` on an object. -/
def lookupField : List (String × Json) → String → Option Json
  | [], _ => none
  | (k, v) :: rest, key => if k = key then some v else lookupField rest key

/-- Rust `Value::get(key)`: field lookup on objects, `none` on every other value. -/
def Json.get (j : Json) (key : String) : Option Json :=
  match j with
  | .obj fields => lookupField fields key
  | _ => none

/-- Rust `Value::as_str()`. -/
def Json.asStr : Json → Option String
  | .str s => some s
  | _ => none

/-- The error kinds of `ClaudeSDKError` (errors.rs) that the engine and the
framing layer construct. -/
inductive SDKError where
  | controlProtocol (msg : String)
  | timeout (msg : String)
  | jsonDecode (msg : String)
deriving Repr, DecidableEq

/-- The `Display` rendering of `ClaudeSDKError` (the `#[error(...)]` strings in errors.rs),
used by `e.to_string()` when building an error reply frame. -/
def SDKError.render : SDKError → String
  | .controlProtocol m => "Control protocol error: " ++ m
  | .timeout m => "Timeout: " ++ m
  | .jsonDecode m => "JSON decode error: " ++ m

/-- Enum `ControlResponseType` (types.rs): the two reply variants, tagged by
`subtype`, with `response` omitted when `None`. -/
inductive ControlResponseType where
  | success (request_id : String) (response : Option Json)
  | error (request_id : String) (error : String)
deriving Repr

/-- Serialization of `ControlResponseType` (serde internally tagged by
`subtype`, fields in declaration order, `response` skipped when `None`). -/
def ControlResponseType.toJson : ControlResponseType → Json
  | .success rid none =>
      .obj [("subtype", .str "success"), ("request_id", .str rid)]
  | .success rid (some r) =>
      .obj [("subtype", .str "success"), ("request_id", .str rid), ("response", r)]
  | .error rid e =>
      .obj [("subtype", .str "error"), ("request_id", .str rid), ("error", .str e)]

/-- Serialization of `SDKControlResponse::ControlResponse` (types.rs): the
frame written back through the transport, tagged by `type`. -/
def mkControlResponse (r : ControlResponseType) : Json :=
  .obj [("type", .str "control_response"), ("response", r.toJson)]

/-- Struct `ToolPermissionContext` (types.rs). -/
structure ToolPermissionContext where
  suggestions : List Json
deriving Repr

/-- Enum `PermissionResult` (types.rs). -/
inductive PermissionResult where
  | allow (updated_input : Option Json) (updated_permissions : Option (List Json))
  | deny (message : String) ( interrupt : Bool)
deriving Repr

/-- The registered tool-permission callback, modelled as a pure function
(the Rust callback is async; its awaited result is all the engine uses). -/
def ToolPermissionCallback := String → Json → ToolPermissionContext → PermissionResult

/-- Function `Query::handle_control_response` (query.rs lines 125-143), acting on the
correlation table `pending_responses` (modelled as the list of request ids
that hold a live oneshot sender).  Returns the new table together with the
resolution delivered to the removed waiter, if any: `some (rid, result)`
means the sender registered under `rid` was removed from the table and fired
with `result`; `none` means the frame was dropped silently and the table is
unchanged. -/
def handle_control_response (value : Json) (pending : List String) :
    List String × Option (String × Except SDKError Json) :=
  match value.get "response" with
  | none => (pending, none)
  | some response =>
    match (response.get "request_id").bind Json.asStr with
    | none => (pending, none)
    | some request_id =>
      if request_id ∈ pending then
        let result : Except SDKError Json :=
          if (response.get "subtype").bind Json.asStr = some "error" then
            Except.error (SDKError.controlProtocol
              (((response.get "error").bind Json.asStr).getD "Unknown error"))
          else
            Except.ok ((response.get "response").getD Json.null)
        (pending.erase request_id, some (request_id, result))
      else
        (pending, none)

/-- Extraction `request.get("subtype").and_then(as_str).unwrap_or("")` (query.rs line 187). -/
def requestSubtype (request : Json) : String :=
  ((request.get "subtype").bind Json.asStr).getD ""

/-- Extraction `value.get("request_id").and_then(as_str).unwrap_or("")` (query.rs lines 150-154). -/
def requestIdOf (value : Json) : String :=
  ((value.get "request_id").bind Json.asStr).getD ""

/-- The subtypes the dispatcher recognizes (query.rs lines 190 and 226). -/
def knownSubtypes : List String :=
  ["can_use_tool", "initialize", "interrupt", "set_permission_mode", "hook_callback", "mcp_message"]

/-- Function `Query::process_control_request` (query.rs lines 183-232): dispatch an
inbound control request body by `subtype`.  The Rust code maps any present
`permission_suggestions` array to an empty `Vec` (lines 198-202), so the
context's suggestion list is always empty. -/
def process_control_request (request : Json)
    (can_use_tool : Option ToolPermissionCallback) : Except SDKError Json :=
  let subtype := requestSubtype request
  if subtype = "can_use_tool" then
    match can_use_tool with
    | some callback =>
      match (request.get "tool_name").bind Json.asStr with
      | none => Except.error (SDKError.controlProtocol "Missing tool_name")
      | some tool_name =>
        let input := (request.get "input").getD Json.null
        let context : ToolPermissionContext := ⟨[]⟩
        match callback tool_name input context with
        | .allow updated_input _ =>
          match updated_input with
          | some inp => Except.ok (Json.obj [("allow", Json.bool true), ("input", inp)])
          | none => Except.ok (Json.obj [("allow", Json.bool true)])
        | .deny message _ =>
          Except.ok (Json.obj [("allow", Json.bool false), ("reason", Json.str message)])
    | none => Except.error (SDKError.controlProtocol "can_use_tool callback not provided")
  else if subtype = "initialize" ∨ subtype = "interrupt" ∨ subtype = "set_permission_mode"
      ∨ subtype = "hook_callback" ∨ subtype = "mcp_message" then
    Except.ok Json.null
  else
    Except.error (SDKError.controlProtocol ("Unknown request subtype: " ++ subtype))

/-- Function `Query::handle_control_request` (query.rs lines 145-181): returns the
reply frame written back through the transport, or `none` when the frame
carries no `request` field (the early `return` at lines 156-159). -/
def handle_control_request (value : Json)
    (can_use_tool : Option ToolPermissionCallback) : Option Json :=
  let request_id := requestIdOf value
  match value.get "request" with
  | none => none
  | some request =>
    match process_control_request request can_use_tool with
    | .ok data =>
        some (mkControlResponse (ControlResponseType.success request_id (some data)))
    | .error e =>
        some (mkControlResponse (ControlResponseType.error request_id e.render))

/-- The `type` discriminator of a frame: `value.get("type").and_then(as_str)`. -/
def frameType (v : Json) : Option String := (v.get "type").bind Json.asStr

/-- A frame forwarded to the ordinary-message channel: its `type` is neither
`control_response` nor `control_request` (including frames with no string
`type` at all, which fall through the Rust `match` to the regular branch). -/
def isOrdinary (v : Json) : Bool :=
  match frameType v with
  | some t => if t = "control_response" then false else if t = "control_request" then false else true
  | none => true

/-- State threaded through the read loop spawned by `Query::start`
(query.rs lines 81-123): the correlation table, the values sent on the
ordinary-message channel `message_tx`, the reply frames written back through
the transport, and the resolutions fired on removed oneshot senders. -/
structure LoopState where
  pending : List String
  delivered : List Json
  replies : List Json
  resolutions : List (String × Except SDKError Json)
deriving Repr

/-- One iteration of the read loop of `Query::start` on a decoded frame:
route by `type` to `handle_control_response` / `handle_control_request`
(each followed by `continue`), otherwise send on the message channel. -/
def readLoopStep (can_use_tool : Option ToolPermissionCallback)
    (s : LoopState) (value : Json) : LoopState :=
  match frameType value with
  | some t =>
    if t = "control_response" then
      let pr := handle_control_response value s.pending
      { s with pending := pr.1, resolutions := s.resolutions ++ pr.2.toList }
    else if t = "control_request" then
      match handle_control_request value can_use_tool with
      | some reply => { s with replies := s.replies ++ [reply] }
      | none => s
    else
      { s with delivered := s.delivered ++ [value] }
  | none => { s with delivered := s.delivered ++ [value] }

/-- The read loop of `Query::start` over a finite sequence of decoded frames. -/
def readLoop (can_use_tool : Option ToolPermissionCallback)
    (frames : List Json) (s : LoopState) : LoopState :=
  frames.foldl (readLoopStep can_use_tool) s

/-- Caller-visible state of a `Query` (query.rs lines 19-31): the streaming
flag, the outbound request counter, the correlation table, and the one-shot
receiver slot `message_rx` (the receiver itself abstracted to a tag). -/
structure QueryState where
  is_streaming : Bool
  requestCounter : Nat
  pendingResponses : List String
  messageRx : Option Nat
deriving Repr, DecidableEq

/-- Constructor `Query::new`: fresh counter, empty table, receiver slot occupied. -/
def Query.new (is_streaming : Bool) : QueryState :=
  { is_streaming := is_streaming, requestCounter := 0,
    pendingResponses := [], messageRx := some 0 }

/-- What the 60-second wait on the oneshot receiver observes: either the
read loop fired the sender with a result before the deadline, or nothing
arrived and `tokio::time::timeout` expired. -/
inductive ControlOutcome where
  | response (result : Except SDKError Json)
  | timeout
deriving Repr

/-- Function `Query::send_control_request` (query.rs lines 254-284): bump the counter,
register the fresh request id in `pending_responses`, write the
`control_request` frame, then await the oneshot receiver under the 60 s
timeout.  On the `response` path the table entry has already been removed by
`handle_control_response` in the read loop; on the `timeout` path the Rust
code returns the timeout error without touching `pending_responses` (lines
279-284 contain no `remove`), which this embedding mirrors. -/
def send_control_request (s : QueryState) (uuid : String)
    (outcome : ControlOutcome) : QueryState × Except SDKError Json :=
  if s.is_streaming = false then
    (s, Except.error (SDKError.controlProtocol "Control requests require streaming mode"))
  else
    let counter := s.requestCounter + 1
    let request_id := "req_" ++ toString counter ++ "_" ++ uuid
    let s' := { s with requestCounter := counter,
                       pendingResponses := s.pendingResponses ++ [request_id] }
    match outcome with
    | .response r => (s', r)
    | .timeout => (s', Except.error (SDKError.timeout "Control request timeout"))

/-- Function `Query::receive_messages` (query.rs lines 301-304):
`self.message_rx.take().unwrap()`.  `none` models the `unwrap` panic when the
slot has already been emptied by a previous call. -/
def receive_messages (s : QueryState) : Option (Nat × QueryState) :=
  match s.messageRx with
  | some rx => some (rx, { s with messageRx := none })
  | none => none

/-- The `Message` enum (types.rs lines 232-276), payloads condensed to one
`Json` field per variant; `ClaudeSDKClient::receive_response` discriminates
only on the `result` constructor. -/
inductive Message where
  | user (payload : Json)
  | assistant (payload : Json)
  | system (subtype : String) (payload : Json)
  | result (subtype : String) (is_error : Bool) (payload : Json)
  | streamEvent (payload : Json)
deriving Repr

/-- The predicate tested by `receive_response` (client.rs line 79):
`matches!(msg, Ok(Message::Result { .. }))`. -/
def isResultItem : Except SDKError Message → Bool
  | .ok (.result _ _ _) => true
  | _ => false

/-- Function `ClaudeSDKClient::receive_response` (client.rs lines 77-82): the
receive-until-terminal view, `take_while` with `!matches!(.., Result)` over
the parsed message stream. -/
def receive_response (msgs : List (Except SDKError Message)) :
    List (Except SDKError Message) :=
  msgs.takeWhile (fun m => !(isResultItem m))

/-! ### Framing layer (`SubprocessCLITransport::read_stdout`,
transport/subprocess.rs lines 411-451)

`serde_json::from_slice::<Value>` is modelled by a `decode` parameter; the
executable instance `parseJson` below implements the JSON grammar with
numbers restricted to integers. -/

/-- Constant `DEFAULT_MAX_BUFFER_SIZE` (subprocess.rs line 20). -/
def DEFAULT_MAX_BUFFER_SIZE : Nat := 1024 * 1024

/-- The decode error emitted when the accumulation buffer exceeds the
configured maximum (subprocess.rs lines 426-429). -/
def bufferExceededError (maxSize : Nat) : SDKError :=
  SDKError.jsonDecode ("JSON buffer exceeded " ++ toString maxSize ++ " bytes")

/-- Leading-whitespace removal on a character list. -/
def dropLeadingWs : List Char → List Char
  | [] => []
  | c :: cs => if c.isWhitespace then dropLeadingWs cs else c :: cs

/-- Model of `str::trim` (subprocess.rs line 417): remove leading and
trailing whitespace.  Rust trims the full Unicode White_Space set; the
frames under consideration are ASCII, where the two notions agree. -/
def strTrim (s : String) : String :=
  String.mk (dropLeadingWs (dropLeadingWs s.data.reverse).reverse)

/-- One iteration of the `read_stdout` loop on one raw line: trim it, skip it
if empty, append it to the accumulation buffer, emit a decode error and
discard the buffer if the buffer now exceeds `maxSize` bytes, otherwise try
to decode the whole buffer, emitting the value and clearing the buffer on
success and keeping the buffer on failure.  Returns the new buffer and the
items sent on the channel. -/
def framerStep (decode : String → Option Json) (maxSize : Nat)
    (buf : String) (line : String) : String × List (Except SDKError Json) :=
  let t := strTrim line
  if t = "" then (buf, [])
  else
    let b := buf ++ t
    if b.utf8ByteSize > maxSize then
      ("", [Except.error (bufferExceededError maxSize)])
    else
      match decode b with
      | some v => ("", [Except.ok v])
      | none => (b, [])

/-- The `read_stdout` loop over a finite sequence of raw lines, returning the
final buffer and the concatenated emitted items. -/
def framerRun (decode : String → Option Json) (maxSize : Nat) :
    String → List String → String × List (Except SDKError Json)
  | buf, [] => (buf, [])
  | buf, l :: ls =>
    let s1 := framerStep decode maxSize buf l
    let s2 := framerRun decode maxSize s1.1 ls
    (s2.1, s1.2 ++ s2.2)

/-! ### An executable JSON decoder (model of `serde_json::from_slice::<Value>`) -/

/-- JSON inter-token whitespace. -/
def skipWs : List Char → List Char
  | [] => []
  | c :: cs => if c = ' ' ∨ c = '\t' ∨ c = '\n' ∨ c = '\r' then skipWs cs else c :: cs

/-- Recognized string escapes (the `\uXXXX` form is out of the model). -/
def escChar (e : Char) : Option Char :=
  if e = 'n' then some '\n'
  else if e = 't' then some '\t'
  else if e = 'r' then some '\r'
  else if e = '"' then some '"'
  else if e = '\\' then some '\\'
  else if e = '/' then some '/'
  else if e = 'b' then some (Char.ofNat 8)
  else if e = 'f' then some (Char.ofNat 12)
  else none

/-- Body of a JSON string after the opening quote: returns the decoded
characters and the remainder after the closing quote. -/
def parseStrChars : List Char → Option (List Char × List Char)
  | [] => none
  | '"' :: rest => some ([], rest)
  | '\\' :: rest =>
    match rest with
    | [] => none
    | e :: rest2 =>
      match escChar e with
      | none => none
      | some c =>
        match parseStrChars rest2 with
        | none => none
        | some (s, r) => some (c :: s, r)
  | c :: rest =>
    match parseStrChars rest with
    | none => none
    | some (s, r) => some (c :: s, r)

/-- Longest leading run of decimal digits. -/
def takeDigits : List Char → List Char × List Char
  | [] => ([], [])
  | c :: cs =>
    if c.isDigit then
      let dr := takeDigits cs
      (c :: dr.1, dr.2)
    else ([], c :: cs)

/-- Decimal value of a digit run. -/
def digitsToNat (ds : List Char) : Nat :=
  ds.foldl (fun a c => a * 10 + (c.toNat - 48)) 0

/-- JSON natural-number literal: `0` alone, or a nonzero digit followed by
digits. -/
def parseNatPart : List Char → Option (Nat × List Char)
  | [] => none
  | c :: cs =>
    if c = '0' then some (0, cs)
    else if c.isDigit then
      let dr := takeDigits cs
      some (digitsToNat (c :: dr.1), dr.2)
    else none

/-- JSON integer literal with optional leading minus. -/
def parseNum : List Char → Option (Json × List Char)
  | '-' :: cs =>
    match parseNatPart cs with
    | some (n, r) => some (.num (-(n : Int)), r)
    | none => none
  | cs =>
    match parseNatPart cs with
    | some (n, r) => some (.num (n : Int), r)
    | none => none

mutual

/-- One JSON value, fuel-indexed (the fuel bounds nesting depth). -/
def parseVal : Nat → List Char → Option (Json × List Char)
  | 0, _ => none
  | fuel + 1, cs =>
    match skipWs cs with
    | 'n' :: 'u' :: 'l' :: 'l' :: rest => some (.null, rest)
    | 't' :: 'r' :: 'u' :: 'e' :: rest => some (.bool true, rest)
    | 'f' :: 'a' :: 'l' :: 's' :: 'e' :: rest => some (.bool false, rest)
    | '"' :: rest =>
      match parseStrChars rest with
      | some (s, r) => some (.str (String.mk s), r)
      | none => none
    | '[' :: rest =>
      match skipWs rest with
      | ']' :: r => some (.arr [], r)
      | cs2 =>
        match parseItems fuel cs2 with
        | some (vs, r) => some (.arr vs, r)
        | none => none
    | '\x7b' :: rest =>
      match skipWs rest with
      | '\x7d' :: r => some (.obj [], r)
      | cs2 =>
        match parseFields fuel cs2 with
        | some (fs, r) => some (.obj fs, r)
        | none => none
    | cs1 => parseNum cs1

/-- Comma-separated array items up to the closing bracket. -/
def parseItems : Nat → List Char → Option (List Json × List Char)
  | 0, _ => none
  | fuel + 1, cs =>
    match parseVal fuel cs with
    | none => none
    | some (v, rest) =>
      match skipWs rest with
      | ',' :: r2 =>
        match parseItems fuel r2 with
        | some (vs, r) => some (v :: vs, r)
        | none => none
      | ']' :: r2 => some ([v], r2)
      | _ => none

/-- Comma-separated `"key": value` fields up to the closing brace. -/
def parseFields : Nat → List Char → Option (List (String × Json) × List Char)
  | 0, _ => none
  | fuel + 1, cs =>
    match skipWs cs with
    | '"' :: rest =>
      match parseStrChars rest with
      | none => none
      | some (k, r1) =>
        match skipWs r1 with
        | ':' :: r2 =>
          match parseVal fuel r2 with
          | none => none
          | some (v, r3) =>
            match skipWs r3 with
            | ',' :: r4 =>
              match parseFields fuel r4 with
              | some (fs, r) => some ((String.mk k, v) :: fs, r)
              | none => none
            | '\x7d' :: r4 => some ([(String.mk k, v)], r4)
            | _ => none
        | _ => none
    | _ => none

end

/-- Model of `serde_json::from_slice::<Value>` on a complete input: one value, then
only trailing whitespace. -/
def parseJson (s : String) : Option Json :=
  match parseVal (s.length + 1) s.data with
  | some (v, rest) => if skipWs rest = [] then some v else none
  | none => none

/-! ### Splitting a frame sequence across line boundaries -/

/-- Concatenation of the lines a frame (or a run of frames) was split into. -/
def joinAll : List String → String
  | [] => ""
  | s :: ss => s ++ joinAll ss

/-- A well-behaved split of one frame with value `v` into the lines `g`:
the lines are nonempty and trim-invariant (so line trimming in the framer
does not alter the frame text), the reassembled frame text is trim-invariant,
no accumulated proper prefix of the frame decodes as a JSON value, the full
frame decodes to `v`, and no accumulated prefix exceeds `maxSize` bytes. -/
def GoodSplit (decode : String → Option Json) (maxSize : Nat)
    (g : List String) (v : Json) : Prop :=
  g ≠ []
  ∧ (∀ l ∈ g, strTrim l = l ∧ l ≠ "")
  ∧ strTrim (joinAll g) = joinAll g
  ∧ (∀ j, 1 ≤ j → j < g.length → decode (joinAll (g.take j)) = none)
  ∧ decode (joinAll g) = some v
  ∧ (∀ j, 1 ≤ j → j ≤ g.length → (joinAll (g.take j)).utf8ByteSize ≤ maxSize)

/-- The physical lines of a split frame sequence, in order. -/
def framesOf (specs : List (List String × Json)) : List String :=
  (specs.map Prod.fst).flatten

/-- The items the framer is expected to emit for a frame sequence. -/
def valuesOf (specs : List (List String × Json)) : List (Except SDKError Json) :=
  specs.map (fun p => Except.ok p.2)

/-! ### Concrete inputs used by witnesses and counterexamples -/

/-- The body of the C6 scenario request. -/
def scenarioRequestBody : Json :=
  .obj [("subtype", .str "can_use_tool"), ("tool_name", .str "Bash"), ("input", .obj [])]

/-- The C6 scenario inbound frame. -/
def scenarioRequestFrame : Json :=
  .obj [("type", .str "control_request"), ("request_id", .str "r1"),
        ("request", scenarioRequestBody)]

/-- The reply frame the C6 scenario expects on the wire. -/
def scenarioReplyFrame : Json :=
  .obj [("type", .str "control_response"),
        ("response", .obj [("subtype", .str "success"), ("request_id", .str "r1"),
                           ("response", .obj [("allow", .bool false), ("reason", .str "no")])])]

/-- The callback of the C6 scenario: `Deny { message: "no", interrupt: false }`. -/
def denyNoCallback : ToolPermissionCallback :=
  fun _ _ _ => PermissionResult.deny "no" false

/-- The embedded `response` object of `okResponseFrame`. -/
def okResponseBody : Json :=
  .obj [("subtype", .str "success"), ("request_id", .str "r9"), ("response", Json.null)]

/-- A success control response for request id `r9` with a `null` payload. -/
def okResponseFrame : Json :=
  .obj [("type", .str "control_response"), ("response", okResponseBody)]

/-- An inbound control request whose subtype nothing recognizes. -/
def bogusRequestFrame : Json :=
  .obj [("type", .str "control_request"), ("request_id", .str "r2"),
        ("request", .obj [("subtype", .str "bogus")])]

/-- An inbound `control_request` frame with no `request` field at all. -/
def noRequestFieldFrame : Json :=
  .obj [("type", .str "control_request"), ("request_id", .str "r3")]

/-- A message list with a terminal result frame in the middle. -/
def demoMsgs : List (Except SDKError Message) :=
  [Except.ok (Message.user Json.null),
   Except.ok (Message.result "success" false Json.null),
   Except.ok (Message.user Json.null)]

/-- A two-frame sequence, the first frame split inside the object braces. -/
def demoSpecs : List (List String × Json) :=
  [(["\x7b\"a\"", ":1\x7d"], Json.obj [("a", Json.num 1)]),
   (["\x7b\x7d"], Json.obj [])]

/-! ## Helper lemmas -/

theorem readLoopStep_delivered (cb : Option ToolPermissionCallback)
    (s : LoopState) (v : Json) :
    (readLoopStep cb s v).delivered
      = if isOrdinary v then s.delivered ++ [v] else s.delivered := by
  unfold readLoopStep isOrdinary
  rcases h : frameType v with _ | t
  · simp
  · by_cases h1 : t = "control_response"
    · simp [h1]
    · by_cases h2 : t = "control_request"
      · subst h2
        simp only [h1, if_false, if_true, ite_false, ite_true]
        cases handle_control_request v cb <;> simp [h1]
      · simp [h1, h2]

theorem readLoopStep_not_ordinary_delivered (cb : Option ToolPermissionCallback)
    (s : LoopState) (v : Json) (h : isOrdinary v = false) :
    (readLoopStep cb s v).delivered = s.delivered := by
  rw [readLoopStep_delivered, h]
  simp

theorem isOrdinary_false_of_control_response (v : Json)
    (h : frameType v = some "control_response") : isOrdinary v = false := by
  unfold isOrdinary
  rw [h]
  simp

theorem isOrdinary_false_of_control_request (v : Json)
    (h : frameType v = some "control_request") : isOrdinary v = false := by
  unfold isOrdinary
  rw [h]
  simp

/-! ## C1 -/

/-- C1: the claim states that after the 60 s timeout of
`send_control_request` elapses, `pending_responses` holds no entry for the
request id while the caller gets the timeout error exactly once.  The code
returns the timeout error but never removes the entry (query.rs lines
279-284 contain no `remove`), so the table still holds the id: evaluating
the embedding on the first request of a streaming session whose response
never arrives shows the error together with the leaked entry. -/
theorem send_control_request_timeout_leaks_entry :
    (send_control_request (Query.new true) "u0" ControlOutcome.timeout).2
        = Except.error (SDKError.timeout "Control request timeout")
    ∧ "req_1_u0" ∈
        (send_control_request (Query.new true) "u0" ControlOutcome.timeout).1.pendingResponses :=
  ⟨rfl, by decide⟩

/-! ## C5 -/

/-- C5: an inbound control request whose dispatch fails — `can_use_tool`
with no registered permission callback, or an unrecognized subtype — is
answered with a `control_response` error reply frame for its request id
(whose error string names the unrecognized subtype), and control requests
never surface anything on the caller's message stream; they are never
silently dropped. -/
theorem inbound_dispatch_failure_replies (v req : Json)
    (hreq : v.get "request" = some req) :
    (requestSubtype req = "can_use_tool" →
      handle_control_request v none
        = some (mkControlResponse (ControlResponseType.error (requestIdOf v)
            "Control protocol error: can_use_tool callback not provided")))
    ∧ (∀ cb, requestSubtype req ∉ knownSubtypes →
        handle_control_request v cb
          = some (mkControlResponse (ControlResponseType.error (requestIdOf v)
              ("Control protocol error: Unknown request subtype: " ++ requestSubtype req))))
    ∧ (∀ (cb : Option ToolPermissionCallback) (s : LoopState) (v' : Json),
        frameType v' = some "control_request" →
        (readLoopStep cb s v').delivered = s.delivered) := by
  refine ⟨?_, ?_, ?_⟩
  · intro h
    have hp : process_control_request req none
        = Except.error (SDKError.controlProtocol "can_use_tool callback not provided") := by
      simp only [process_control_request]
      rw [h]
      simp
    unfold handle_control_request
    simp only [hreq, hp]
    rfl
  · intro cb h
    simp only [knownSubtypes, List.mem_cons, List.mem_singleton, not_or] at h
    obtain ⟨h1, h2, h3, h4, h5, h6⟩ := h
    have hp : process_control_request req cb
        = Except.error (SDKError.controlProtocol
            ("Unknown request subtype: " ++ requestSubtype req)) := by
      simp only [process_control_request]
      rw [if_neg h1, if_neg (by simp [h2, h3, h4, h5, h6])]
    unfold handle_control_request
    simp only [hreq, hp]
    rfl
  · intro cb s v' h
    exact readLoopStep_not_ordinary_delivered cb s v'
      (isOrdinary_false_of_control_request v' h)

/-- Witness for C5: the `bogus` subtype is answered with an error reply
frame naming it. -/
theorem inbound_dispatch_failure_replies_witness :
    handle_control_request bogusRequestFrame none
      = some (mkControlResponse (ControlResponseType.error "r2"
          "Control protocol error: Unknown request subtype: bogus")) :=
  (((inbound_dispatch_failure_replies bogusRequestFrame
      (Json.obj [("subtype", Json.str "bogus")]) rfl).2.1) none (by decide)).trans rfl

/-! ## C6 -/

/-- C6: with a registered permission callback, a `can_use_tool` request maps
the callback's decision into the success payload — `Allow` becomes
`allow: true` with an `input` field exactly when a replacement input is
present, `Deny` becomes `allow: false` with the message under `reason` —
and on the spec's Bash/Deny scenario the engine writes exactly the expected
`control_response` frame. -/
theorem can_use_tool_decision_mapping (req : Json) (cb : ToolPermissionCallback) (tool : String)
    (hsub : requestSubtype req = "can_use_tool")
    (htool : (req.get "tool_name").bind Json.asStr = some tool) :
    (process_control_request req (some cb)
      = Except.ok (match cb tool ((req.get "input").getD Json.null) ⟨[]⟩ with
          | .allow none _ => Json.obj [("allow", Json.bool true)]
          | .allow (some inp) _ => Json.obj [("allow", Json.bool true), ("input", inp)]
          | .deny msg _ => Json.obj [("allow", Json.bool false), ("reason", Json.str msg)]))
    ∧ handle_control_request scenarioRequestFrame (some denyNoCallback)
        = some scenarioReplyFrame := by
  constructor
  · simp only [process_control_request]
    rw [hsub]
    simp only [if_pos rfl, htool]
    cases hres : cb tool ((req.get "input").getD Json.null) ⟨[]⟩ with
    | allow ui up => cases ui <;> simp [hres]
    | deny m i => simp [hres]
  · rfl

/-- Witness for C6: the Deny mapping evaluated on the scenario body. -/
theorem can_use_tool_decision_mapping_witness :
    process_control_request scenarioRequestBody (some denyNoCallback)
      = Except.ok (Json.obj [("allow", Json.bool false), ("reason", Json.str "no")]) :=
  ((can_use_tool_decision_mapping scenarioRequestBody denyNoCallback "Bash" rfl rfl).1).trans rfl

/-! ## C7 -/

/-- C7: whenever appending a (trimmed, nonempty) line pushes the
accumulation buffer beyond the configured maximum size, the framer emits
exactly one decode-error item for that frame, discards the entire buffer,
and accumulation resumes from the next line; on the spec's scenario — a
10-byte maximum, two consecutive malformed 6-byte lines, then a valid
frame — exactly one decode-error is emitted, followed by the decoded value
of the next valid frame. -/
theorem buffer_overflow_emits_single_error (maxSize : Nat) (buf line : String)
    (hne : ¬ strTrim line = "")
    (hover : (buf ++ strTrim line).utf8ByteSize > maxSize) :
    framerStep parseJson maxSize buf line
      = ("", [Except.error (bufferExceededError maxSize)])
    ∧ framerRun parseJson 10 "" ["aaaaaa", "bbbbbb", "\x7b\x7d"]
        = ("", [Except.error (bufferExceededError 10), Except.ok (Json.obj [])]) := by
  constructor
  · simp only [framerStep]
    rw [if_neg hne, if_pos hover]
  · rfl

/-- Witness for C7 at the scenario's overflowing second line. -/
theorem buffer_overflow_emits_single_error_witness :
    framerStep parseJson 10 "aaaaaa" "bbbbbb"
      = ("", [Except.error (bufferExceededError 10)]) :=
  (buffer_overflow_emits_single_error 10 "aaaaaa" "bbbbbb" (by decide) (by decide)).1

/-! ## C2 -/

theorem joinAll_cons (s : String) (ss : List String) :
    joinAll (s :: ss) = s ++ joinAll ss := rfl

theorem joinAll_singleton (s : String) : joinAll [s] = s := by
  simp [joinAll]

theorem framerRun_cons (decode : String → Option Json) (maxSize : Nat)
    (buf l : String) (ls : List String) :
    framerRun decode maxSize buf (l :: ls)
      = ((framerRun decode maxSize (framerStep decode maxSize buf l).1 ls).1,
         (framerStep decode maxSize buf l).2
           ++ (framerRun decode maxSize (framerStep decode maxSize buf l).1 ls).2) := rfl

/-- C2 counterexample: the single well-formed JSON frame `12`, split at a
line boundary into `1` and `2` (total size far below the maximum), decodes
to the two values `1`, `2` instead of the one value `12` obtained by feeding
the frame undivided, because the framer re-parses the accumulated buffer
after every line and a proper prefix of a number literal is itself a
complete JSON value. -/
theorem framing_split_counterexample :
    parseJson "12" = some (Json.num 12)
    ∧ ¬ ((framerRun parseJson DEFAULT_MAX_BUFFER_SIZE "" ["1", "2"]).2
          = (framerRun parseJson DEFAULT_MAX_BUFFER_SIZE "" ["12"]).2) := by
  refine ⟨rfl, ?_⟩
  intro h
  have h1 : (framerRun parseJson DEFAULT_MAX_BUFFER_SIZE "" ["1", "2"]).2.length = 2 := rfl
  have h2 : (framerRun parseJson DEFAULT_MAX_BUFFER_SIZE "" ["12"]).2.length = 1 := rfl
  rw [h, h2] at h1
  exact absurd h1 (by decide)

theorem framerRun_append (decode : String → Option Json) (maxSize : Nat) :
    ∀ (xs ys : List String) (buf : String),
      framerRun decode maxSize buf (xs ++ ys)
        = ((framerRun decode maxSize (framerRun decode maxSize buf xs).1 ys).1,
           (framerRun decode maxSize buf xs).2
             ++ (framerRun decode maxSize (framerRun decode maxSize buf xs).1 ys).2) := by
  intro xs
  induction xs with
  | nil => intro ys buf; simp [framerRun]
  | cons l ls ih =>
    intro ys buf
    simp only [List.cons_append, framerRun_cons, ih, List.append_assoc]

theorem framerRun_goodSplit (decode : String → Option Json) (maxSize : Nat) :
    ∀ (g : List String) (buf : String) (v : Json),
      g ≠ [] →
      (∀ l ∈ g, strTrim l = l ∧ l ≠ "") →
      (∀ j, 1 ≤ j → j < g.length → decode (buf ++ joinAll (g.take j)) = none) →
      decode (buf ++ joinAll g) = some v →
      (∀ j, 1 ≤ j → j ≤ g.length → (buf ++ joinAll (g.take j)).utf8ByteSize ≤ maxSize) →
      framerRun decode maxSize buf g = ("", [Except.ok v]) := by
  intro g
  induction g with
  | nil => intro buf v hne _ _ _ _; exact absurd rfl hne
  | cons l ls ih =>
    intro buf v _ htrim hpre hfull hsz
    obtain ⟨hlt, hlne⟩ := htrim l (by simp)
    have hsz1 : (buf ++ l).utf8ByteSize ≤ maxSize := by
      have h1 := hsz 1 (by omega) (by simp only [List.length_cons]; omega)
      simpa [show (l :: ls).take 1 = [l] from rfl, joinAll] using h1
    have hstep : framerStep decode maxSize buf l
        = (match decode (buf ++ l) with
           | some w => ("", [Except.ok w])
           | none => (buf ++ l, [])) := by
      simp only [framerStep, hlt]
      rw [if_neg hlne, if_neg (not_lt.mpr hsz1)]
    cases ls with
    | nil =>
      have hdec : decode (buf ++ l) = some v := by simpa [joinAll] using hfull
      have hstep2 : framerStep decode maxSize buf l = ("", [Except.ok v]) := by
        rw [hstep, hdec]
      rw [framerRun_cons, hstep2]
      simp [framerRun]
    | cons l2 ls2 =>
      have hdec : decode (buf ++ l) = none := by
        have h1 := hpre 1 (by omega) (by simp only [List.length_cons]; omega)
        simpa [show (l :: l2 :: ls2).take 1 = [l] from rfl, joinAll] using h1
      have hstep2 : framerStep decode maxSize buf l = (buf ++ l, []) := by
        rw [hstep, hdec]
      have hrec := ih (buf ++ l) v (by simp) (fun x hx => htrim x (by simp [hx]))
        (fun j h1 h2 => by
          have h3 := hpre (j + 1) (by omega)
            (by simp only [List.length_cons] at h2 ⊢; omega)
          simpa [List.take_succ_cons, joinAll, String.append_assoc] using h3)
        (by simpa [joinAll, String.append_assoc] using hfull)
        (fun j h1 h2 => by
          have h3 := hsz (j + 1) (by omega)
            (by simp only [List.length_cons] at h2 ⊢; omega)
          simpa [List.take_succ_cons, joinAll, String.append_assoc] using h3)
      rw [framerRun_cons, hstep2]
      simp [hrec]

theorem framerRun_specs (decode : String → Option Json) (maxSize : Nat) :
    ∀ (specs : List (List String × Json)),
      (∀ p ∈ specs, GoodSplit decode maxSize p.1 p.2) →
      framerRun decode maxSize "" (framesOf specs) = ("", valuesOf specs) := by
  intro specs
  induction specs with
  | nil => intro _; simp [framesOf, valuesOf, framerRun]
  | cons p ps ih =>
    intro hgood
    obtain ⟨hne, htrim, _, hpre, hfull, hsz⟩ := hgood p (by simp)
    have hg : framerRun decode maxSize "" p.1 = ("", [Except.ok p.2]) := by
      apply framerRun_goodSplit decode maxSize p.1 "" p.2 hne htrim
      · intro j h1 h2
        have h3 := hpre j h1 h2
        simpa using h3
      · simpa using hfull
      · intro j h1 h2
        have h3 := hsz j h1 h2
        simpa using h3
    have hframes : framesOf (p :: ps) = p.1 ++ framesOf ps := by
      simp [framesOf]
    have hrest := ih (fun q hq => hgood q (by simp [hq]))
    rw [hframes, framerRun_append, hg]
    simp [hrest, valuesOf]

theorem append_ne_empty_left (a b : String) (h : ¬ a = "") : ¬ (a ++ b) = "" := by
  intro hab
  apply h
  have hd : a.data ++ b.data = [] := by
    simpa using congrArg String.data hab
  exact String.ext (List.append_eq_nil.mp hd).1

theorem flatten_singletons {α β : Type} (f : α → β) :
    ∀ (l : List α), (l.map (fun a => [f a])).flatten = l.map f := by
  intro l
  induction l with
  | nil => rfl
  | cons a as ih => simp [ih]

/-- C2 (amended): for every sequence of frames split across line
boundaries — every frame boundary on a line boundary, every line and frame
trim-invariant and nonempty, no accumulated proper prefix of a frame itself
decoding as a JSON value, and no accumulated prefix of a frame exceeding the
maximum buffer size — the framing layer emits exactly the frames' decoded
values, identical to the sequence obtained by feeding the frames undivided. -/
theorem framing_split_invariance (decode : String → Option Json) (maxSize : Nat)
    (specs : List (List String × Json))
    (hgood : ∀ p ∈ specs, GoodSplit decode maxSize p.1 p.2) :
    framerRun decode maxSize "" (framesOf specs) = ("", valuesOf specs)
    ∧ framerRun decode maxSize "" (specs.map (fun p => joinAll p.1))
        = ("", valuesOf specs) := by
  constructor
  · exact framerRun_specs decode maxSize specs hgood
  · have h2 := framerRun_specs decode maxSize
      (specs.map (fun p => ([joinAll p.1], p.2))) (by
        intro q hq
        simp only [List.mem_map] at hq
        obtain ⟨p, hp, rfl⟩ := hq
        obtain ⟨hne, htrim, hjt, hpre, hfull, hsz⟩ := hgood p hp
        have hhead : ¬ joinAll p.1 = "" := by
          obtain ⟨x, xs, hx⟩ := List.exists_cons_of_ne_nil hne
          rw [hx, joinAll_cons]
          exact append_ne_empty_left x (joinAll xs) (htrim x (by simp [hx])).2
        refine ⟨by simp, ?_, ?_, ?_, ?_, ?_⟩
        · intro l hl
          simp only [List.mem_singleton] at hl
          subst hl
          exact ⟨hjt, hhead⟩
        · rw [joinAll_singleton]
          exact hjt
        · intro j h1 h2
          simp only [List.length_singleton] at h2
          exact absurd h1 (by omega)
        · rw [joinAll_singleton]
          exact hfull
        · intro j h1 h2
          simp only [List.length_singleton] at h2
          have hj : j = 1 := by omega
          subst hj
          have hlen : 1 ≤ p.1.length := by
            have := List.length_pos.mpr hne
            omega
          have h4 := hsz p.1.length hlen (le_refl _)
          simpa [show [joinAll p.1].take 1 = [joinAll p.1] from rfl,
            joinAll_singleton, List.take_length] using h4)
    have hframes : framesOf (specs.map (fun p => ([joinAll p.1], p.2)))
        = specs.map (fun p => joinAll p.1) := by
      simp only [framesOf, List.map_map]
      exact flatten_singletons (fun p => joinAll p.1) specs
    have hvals : valuesOf (specs.map (fun p => ([joinAll p.1], p.2))) = valuesOf specs := by
      simp [valuesOf, List.map_map]
    rw [hframes, hvals] at h2
    exact h2

/-- Witness for C2 (amended) on a concrete two-frame split. -/
theorem framing_split_invariance_witness :
    framerRun parseJson DEFAULT_MAX_BUFFER_SIZE "" (framesOf demoSpecs)
      = ("", valuesOf demoSpecs) :=
  (framing_split_invariance parseJson DEFAULT_MAX_BUFFER_SIZE demoSpecs (by
    intro p hp
    simp only [demoSpecs] at hp
    simp at hp
    rcases hp with hp | hp
    · subst hp
      refine ⟨by decide, ?_, by decide, ?_, rfl, ?_⟩
      · intro l hl
        simp at hl
        rcases hl with hl | hl <;> subst hl <;> exact ⟨by decide, by decide⟩
      · intro j h1 h2
        simp at h2
        have hj : j = 1 := by omega
        subst hj
        rfl
      · intro j h1 h2
        simp at h2
        have hj : j = 1 ∨ j = 2 := by omega
        rcases hj with hj | hj <;> subst hj <;> decide
    · subst hp
      refine ⟨by decide, ?_, by decide, ?_, rfl, ?_⟩
      · intro l hl
        simp at hl
        subst hl
        exact ⟨by decide, by decide⟩
      · intro j h1 h2
        simp at h2
        exact absurd h1 (by omega)
      · intro j h1 h2
        simp at h2
        have hj : j = 1 := by omega
        subst hj
        decide)).1

/-! ## C8 -/

/-- C8: the receive-until-terminal view delivers only messages strictly
before the first terminal `Result` frame: no delivered item is a `Result`,
the delivered list is an initial segment of the underlying sequence, and
when the first `Result` sits at index `i` the view delivers exactly the
first `i` items — nothing at or after the `Result` frame is delivered and
no frame beyond it is consumed. -/
theorem receive_response_stops_at_first_result (msgs : List (Except SDKError Message)) :
    (∀ m ∈ receive_response msgs, isResultItem m = false)
    ∧ (∃ rest, receive_response msgs ++ rest = msgs)
    ∧ (∀ (i : Nat) (hi : i < msgs.length),
        isResultItem (msgs.get ⟨i, hi⟩) = true →
        (∀ (j : Nat) (hj : j < msgs.length), j < i → isResultItem (msgs.get ⟨j, hj⟩) = false) →
        receive_response msgs = msgs.take i) := by
  refine ⟨?_, ?_, ?_⟩
  · intro m hm
    have := List.mem_takeWhile_imp hm
    simpa using this
  · refine ⟨msgs.dropWhile (fun m => !(isResultItem m)), ?_⟩
    unfold receive_response
    exact List.takeWhile_append_dropWhile _ _
  · induction msgs with
    | nil => intro i hi; exact absurd hi (by simp)
    | cons m ms ih =>
      intro i hi hres hj
      cases i with
      | zero =>
        have hres0 : isResultItem m = true := by simpa using hres
        unfold receive_response
        rw [List.takeWhile_cons_of_neg (by simp [hres0])]
        simp
      | succ i =>
        have hm : isResultItem m = false := by
          have := hj 0 (by simp) (Nat.succ_pos i)
          simpa using this
        unfold receive_response
        rw [List.takeWhile_cons_of_pos (by simp [hm]), List.take_succ_cons]
        have hi' : i < ms.length := by simpa using hi
        have hres' : isResultItem (ms.get ⟨i, hi'⟩) = true := by
          simpa using hres
        have hj' : ∀ (j : Nat) (hjl : j < ms.length), j < i →
            isResultItem (ms.get ⟨j, hjl⟩) = false := by
          intro j hjl hlt
          have := hj (j + 1) (by simpa using hjl) (Nat.succ_lt_succ hlt)
          simpa using this
        have := ih i hi' hres' hj'
        unfold receive_response at this
        rw [this]

/-- Witness for C8: on a concrete sequence with the first `Result` at index
1, the view delivers exactly the first item. -/
theorem receive_response_stops_at_first_result_witness :
    receive_response demoMsgs = demoMsgs.take 1 :=
  (receive_response_stops_at_first_result demoMsgs).2.2 1 (by decide) (by decide)
    (fun j hj hlt => by
      have hz : j = 0 := by omega
      subst hz
      rfl)

/-! ## C9 -/

/-- C9: an inbound `control_request` frame that lacks a `request` field is
silently ignored: `handle_control_request` writes no reply frame of any kind,
and the read loop leaves its state — delivered messages, replies, correlation
table, resolutions — untouched. -/
theorem missing_request_field_is_silently_ignored (v : Json)
    (cb : Option ToolPermissionCallback) (s : LoopState)
    (htype : frameType v = some "control_request")
    (hreq : v.get "request" = none) :
    handle_control_request v cb = none ∧ readLoopStep cb s v = s := by
  have h1 : handle_control_request v cb = none := by
    unfold handle_control_request
    rw [hreq]
  refine ⟨h1, ?_⟩
  unfold readLoopStep
  rw [htype]
  simp [h1]

/-- Witness for C9 at a concrete frame. -/
theorem missing_request_field_is_silently_ignored_witness :
    handle_control_request noRequestFieldFrame none = none
    ∧ readLoopStep none ⟨["r1"], [], [], []⟩ noRequestFieldFrame = ⟨["r1"], [], [], []⟩ :=
  missing_request_field_is_silently_ignored noRequestFieldFrame none
    ⟨["r1"], [], [], []⟩ rfl rfl

/-! ## C3 -/

theorem readLoopStep_control_response (cb : Option ToolPermissionCallback)
    (s : LoopState) (v : Json) (h : frameType v = some "control_response") :
    readLoopStep cb s v
      = { s with pending := (handle_control_response v s.pending).1,
                 resolutions := s.resolutions ++ (handle_control_response v s.pending).2.toList } := by
  unfold readLoopStep
  rw [h]
  simp

/-- C3: a `control_response` frame whose embedded `request_id` matches a
pending entry removes that entry from the correlation table in the same step
and resolves the waiter with a protocol error exactly when the response
subtype is `error`, and with the embedded payload otherwise; with a nodup
table, the id is gone immediately after resolution.  A response with no
matching entry leaves the table unchanged and resolves nothing, and a
`control_response` frame never touches the delivered message stream or the
outbound replies. -/
theorem control_response_resolution (v resp : Json) (rid : String) (pending : List String)
    (hresp : v.get "response" = some resp)
    (hrid : (resp.get "request_id").bind Json.asStr = some rid) :
    (rid ∈ pending →
      handle_control_response v pending
        = (pending.erase rid,
           some (rid,
             if (resp.get "subtype").bind Json.asStr = some "error" then
               Except.error (SDKError.controlProtocol
                 (((resp.get "error").bind Json.asStr).getD "Unknown error"))
             else
               Except.ok ((resp.get "response").getD Json.null))))
    ∧ (pending.Nodup → rid ∉ pending.erase rid)
    ∧ (rid ∉ pending → handle_control_response v pending = (pending, none))
    ∧ (∀ (cb : Option ToolPermissionCallback) (s : LoopState) (v' : Json),
        frameType v' = some "control_response" →
        (readLoopStep cb s v').delivered = s.delivered
        ∧ (readLoopStep cb s v').replies = s.replies) := by
  refine ⟨?_, ?_, ?_, ?_⟩
  · intro hmem
    unfold handle_control_response
    simp only [hresp, hrid]
    rw [if_pos hmem]
  · intro hnd h
    exact (((List.Nodup.mem_erase_iff hnd).mp h).1) rfl
  · intro hnm
    unfold handle_control_response
    simp only [hresp, hrid]
    rw [if_neg hnm]
  · intro cb s v' h
    rw [readLoopStep_control_response cb s v' h]
    exact ⟨rfl, rfl⟩

/-- Witness for C3: the `r9` success response against the table `["r9"]`
resolves the waiter with the `null` payload and empties the table. -/
theorem control_response_resolution_witness :
    handle_control_response okResponseFrame ["r9"] = ([], some ("r9", Except.ok Json.null)) :=
  ((control_response_resolution okResponseFrame okResponseBody "r9" ["r9"] rfl rfl).1
    (by decide)).trans rfl

/-! ## C4 -/

theorem readLoop_delivered_aux (cb : Option ToolPermissionCallback) :
    ∀ (frames : List Json) (s : LoopState),
      (readLoop cb frames s).delivered = s.delivered ++ frames.filter isOrdinary := by
  intro frames
  induction frames with
  | nil => intro s; simp [readLoop]
  | cons v fs ih =>
    intro s
    show (readLoop cb fs (readLoopStep cb s v)).delivered = _
    rw [ih, readLoopStep_delivered, List.filter_cons]
    by_cases h : isOrdinary v = true
    · simp [h]
    · simp [Bool.not_eq_true] at h
      simp [h]

/-- C4: over any sequence of decoded frames, the values sent on the
ordinary-message channel are exactly the frames whose `type` is neither
`control_response` nor `control_request`, in arrival order — control frames
are filtered out and never reorder the remainder. -/
theorem ordinary_message_delivery_order (cb : Option ToolPermissionCallback)
    (frames : List Json) (pending : List String) :
    (readLoop cb frames
        { pending := pending, delivered := [], replies := [], resolutions := [] }).delivered
      = frames.filter isOrdinary := by
  rw [readLoop_delivered_aux]
  simp

/-! ## C10 -/

/-- C10: the ordinary-message sequence is single-consumption.  The first
call to `Query::receive_messages` takes the receiver out of the
`message_rx` slot and returns the stream; a second call on the same `Query`
finds the slot empty and panics in `.take().unwrap()` (modelled as `none`),
rather than returning an empty or restarted sequence. -/
theorem receive_messages_single_consumption (s : QueryState) (rx : Nat)
    (h : s.messageRx = some rx) :
    receive_messages s = some (rx, { s with messageRx := none })
    ∧ receive_messages { s with messageRx := none } = none := by
  constructor
  · unfold receive_messages
    rw [h]
  · unfold receive_messages
    simp

/-- Witness for C10 on a freshly constructed `Query`. -/
theorem receive_messages_single_consumption_witness :
    receive_messages (Query.new true) = some (0, { Query.new true with messageRx := none })
    ∧ receive_messages { Query.new true with messageRx := none } = none :=
  receive_messages_single_consumption (Query.new true) 0 rfl

end ClaudeSDK
